import Mathlib

/-
Verification of the solar-calendar conversion engine.

The engine converts between proleptic Gregorian dates and a solar calendar
anchored to the vernal equinox.  Every Gregorian date is modelled as the
integer number of days since 1970-01-01 (the value a JS Date holds at UTC
midnight divided by 86400000); `daysFromCivil` maps a calendar triple to that
epoch day exactly as ECMA-262 MakeDay does for the proleptic Gregorian
calendar.  A JS Date object handed to the converter is modelled as the pair
of its year component and its epoch day; theorems that depend on the two
being consistent carry that consistency as a hypothesis on `jan1`.

The equinox table (an external data collaborator, loaded from JSON or
synthesized by the in-code fallback) is an abstract mapping from year to the
epoch day of the stored equinox date of that year.
-/

/-- Epoch day (days since 1970-01-01) of a proleptic Gregorian calendar
triple, for month in 1..12.  Standard era/year-of-era computation; Lean
integer division is Euclidean, which coincides with floor division for the
positive divisors used here. -/
def daysFromCivil (y m d : Int) : Int :=
  let y2 := if m ≤ 2 then y - 1 else y
  let era := y2 / 400
  let yoe := y2 - era * 400
  let mp := (m + 9) % 12
  let doy := (153 * mp + 2) / 5 + d - 1
  let doe := yoe * 365 + yoe / 4 - yoe / 100 + doy
  era * 146097 + doe - 719468

/-- Day of week of an epoch day, 0 = Sunday .. 6 = Saturday, as returned by
the JS Date getUTCDay method (1970-01-01 was a Thursday, code 4). -/
def dayOfWeekOf (g : Int) : Int := (g + 4) % 7

/-- Epoch day of 1 January of a year; used to state that a Date object with
epoch day g carries year component y, namely jan1 y ≤ g < jan1 (y + 1). -/
def jan1 (y : Int) : Int := daysFromCivil y 1 1

/-- The equinox table: year to epoch day of the stored equinox date for that
year, or none when the table has no entry. -/
def EquinoxTable : Type := Int → Option Int

/-- The fallback equinox table built by the method that fills in approximate
data when the JSON fetch fails: March 20 for 1899..2101, March 19 from 2044
in Gregorian leap years and in 2100. -/
def fallbackEquinoxData : EquinoxTable := fun year =>
  if 1899 ≤ year ∧ year ≤ 2101 then
    some (daysFromCivil year 3
      (if (2044 ≤ year ∧ year % 4 = 0 ∧ (year % 100 ≠ 0 ∨ year % 400 = 0)) ∨ year = 2100
       then 19 else 20))
  else none

/-- One month of the fixed 13x28 structure. -/
structure SolarMonth where
  name : String
  days : Int
  startDay : Int
deriving DecidableEq

instance : Inhabited SolarMonth := ⟨⟨"", 0, 0⟩⟩

/-- The fixed 13-month structure of the calendar processor. -/
def calendarStructure : List SolarMonth :=
  [⟨"March", 28, 1⟩, ⟨"April", 28, 29⟩, ⟨"May", 28, 57⟩, ⟨"June", 28, 85⟩,
   ⟨"July", 28, 113⟩, ⟨"August", 28, 141⟩, ⟨"September", 28, 169⟩,
   ⟨"October", 28, 197⟩, ⟨"November", 28, 225⟩, ⟨"December", 28, 253⟩,
   ⟨"January", 28, 281⟩, ⟨"February", 28, 309⟩, ⟨"Sol", 28, 337⟩]

/-- Days added to reach the anchor from the equinox: zero when the equinox
is a Monday, otherwise (8 - dayOfWeek) mod 7. -/
def mondayAdjust (e : Int) : Int :=
  if dayOfWeekOf e ≠ 1 then (8 - dayOfWeekOf e) % 7 else 0

/-- The Gregorian epoch day of day 1 month 1 of a solar year: the first
Monday on or after the vernal equinox of that year, or none when the table
has no entry (the cache of the source is invisible to the pure function). -/
def getSolarYearStartDate (t : EquinoxTable) (solarYear : Int) : Option Int :=
  match t solarYear with
  | none => none
  | some equinoxDate => some (equinoxDate + mondayAdjust equinoxDate)

/-- Standard Gregorian leap-year test. -/
def isGregorianLeapYear (y : Int) : Bool :=
  (y % 4 == 0 && y % 100 != 0) || y % 400 == 0

/-- Leap test of the fixed-28 processor.  With both anchors available the
gap in whole days is measured (abs then round on exact whole-day UTC dates
is the absolute difference) and compared with 366.  Otherwise the fallback
applies the Gregorian test to veYear, the integer parsed from the first four
characters of the stored equinox string; the loader stores every entry keyed
and prefixed by its own year, so veYear equals the solar year whether or not
the entry exists. -/
def isSolarLeapYear (t : EquinoxTable) (solarYear : Int) : Bool :=
  match getSolarYearStartDate t solarYear, getSolarYearStartDate t (solarYear + 1) with
  | some startDate, some nextStartDate => (nextStartDate - startDate).natAbs == 366
  | _, _ => isGregorianLeapYear solarYear

/-- Gregorian epoch day for a day number of the solar year: anchor plus
(dayOfYear - 1), none when the anchor is missing or the day number is
outside 1..365 (1..366 in a leap year). -/
def getGregorianDateForSolarDay (t : EquinoxTable) (solarYear solarDayOfYear : Int) : Option Int :=
  match getSolarYearStartDate t solarYear with
  | none => none
  | some startDate =>
    if solarDayOfYear < 1 ∨ solarDayOfYear > (if isSolarLeapYear t solarYear = true then 366 else 365)
    then none
    else some (startDate + solarDayOfYear - 1)

/-- The record returned by the Gregorian-to-solar conversion: ordinal month
data or a special-day marker.  The month object reference of the source is
represented by its name. -/
structure SolarInfo where
  monthIndex : Int
  day : Int
  year : Int
  specialDay : Option String
  monthName : String
  monthNumber : Option Int
deriving DecidableEq

/-- The Year Day result: monthIndex -1, day 1, no month number. -/
def yearDayInfo (y : Int) : SolarInfo :=
  ⟨-1, 1, y, some ("Year Day"), "Year Day", none⟩

/-- The Leap Day result: monthIndex -1, day 2, no month number. -/
def leapDayInfo (y : Int) : SolarInfo :=
  ⟨-1, 2, y, some ("Leap Day"), "Leap Day", none⟩

/-- The regular result for a 0-based offset ds from the anchor: month
floor(ds / 28), day (ds mod 28) + 1. -/
def regularInfoOf (y ds : Int) : SolarInfo :=
  ⟨ds / 28, ds % 28 + 1, y, none,
   (calendarStructure.getD (ds / 28).toNat default).name, some (ds / 28 + 1)⟩

/-- Outcome of one pass of the converter body: a returned value (possibly
null), or re-entry of the same function with a year hint of solarYear + 1. -/
inductive StepRes where
  | done : Option SolarInfo → StepRes
  | retry : Int → StepRes
deriving DecidableEq

/-- Classification of a 0-based day offset within a chosen solar year,
mirroring the tail of the converter: Year Day at 364, Leap Day at 365 in a
leap year, re-entry at or beyond the year length, null for negative
offsets, otherwise the ordinal month and day. -/
def classifySolarDay (t : EquinoxTable) (solarYear daysSinceStart : Int) : StepRes :=
  let isLeap := isSolarLeapYear t solarYear
  if daysSinceStart = 364 then
    StepRes.done (some (yearDayInfo solarYear))
  else if isLeap = true ∧ daysSinceStart = 365 then
    StepRes.done (some (leapDayInfo solarYear))
  else if daysSinceStart ≥ (if isLeap = true then 366 else 365) then
    StepRes.retry (solarYear + 1)
  else if daysSinceStart < 0 then
    StepRes.done none
  else
    let monthIndex := daysSinceStart / 28
    let dayOfMonth := daysSinceStart % 28 + 1
    if monthIndex < 0 ∨ monthIndex ≥ (calendarStructure.length : Int) then
      StepRes.done none
    else
      StepRes.done (some ⟨monthIndex, dayOfMonth, solarYear, none,
        (calendarStructure.getD monthIndex.toNat default).name, some (monthIndex + 1)⟩)

/-- One pass of the converter body.  The input Date is the pair of its year
component gYear and its epoch day gDateUTC.  The second JS parameter (the
year hint passed on re-entry) is never read by the body, which is why it is
unused here. -/
def convertStep (t : EquinoxTable) (gYear gDateUTC _hint : Int) : StepRes :=
  match getSolarYearStartDate t gYear with
  | some s0 =>
    if gDateUTC < s0 then
      match getSolarYearStartDate t (gYear - 1) with
      | some s1 => classifySolarDay t (gYear - 1) (gDateUTC - s1)
      | none => StepRes.done none
    else
      classifySolarDay t gYear (gDateUTC - s0)
  | none =>
    match getSolarYearStartDate t (gYear - 1) with
    | some s1 => classifySolarDay t (gYear - 1) (gDateUTC - s1)
    | none => StepRes.done none

/-- Fuelled iteration of the converter body, following the re-entry that the
source performs with an incremented year hint.  Returns none when the fuel
runs out. -/
def convertFuel : Nat → EquinoxTable → Int → Int → Int → Option (Option SolarInfo)
  | 0, _, _, _, _ => none
  | n + 1, t, gYear, gDateUTC, hint =>
    match convertStep t gYear gDateUTC hint with
    | StepRes.done r => some r
    | StepRes.retry h2 => convertFuel n t gYear gDateUTC h2

/-- Observable outcome of the converter: a value, or divergence.  Because
the body ignores the hint, a re-entry repeats the identical computation, so
taking the re-entry branch once means the call never terminates. -/
inductive ConvOut where
  | result : Option SolarInfo → ConvOut
  | diverges : ConvOut
deriving DecidableEq

/-- The Gregorian-to-solar conversion.  The top-level call passes no hint
(the body never reads it); a step that re-enters diverges, since the
re-entry repeats the identical computation. -/
def getSolarDateFromGregorian (t : EquinoxTable) (gYear gDateUTC : Int) : ConvOut :=
  match convertStep t gYear gDateUTC 0 with
  | StepRes.done r => ConvOut.result r
  | StepRes.retry _ => ConvOut.diverges

/-- The classification of a 1-based day number d of solar year y expected by
the round-trip law: ordinal month and day for d ≤ 364, Year Day at 365,
Leap Day at 366. -/
def solarClassOf (y d : Int) : SolarInfo :=
  if d ≤ 364 then regularInfoOf y (d - 1)
  else if d = 365 then yearDayInfo y
  else leapDayInfo y

/-- Expected result for the final days of a solar year, indexed by the
0-based offset from its anchor. -/
def lastDayClassOf (y ds : Int) : SolarInfo :=
  if ds = 364 then yearDayInfo y
  else if ds = 365 then leapDayInfo y
  else regularInfoOf y ds

/-
The variable (Solar Hijri style) layout variant: 12 months of 31/30/29-or-30
days, the equinox date itself is day 1 (no weekday adjustment).  Display-only
fields (season, overlapping Gregorian month names) are omitted.
-/

/-- One month of the variable 12-month structure. -/
structure HijriMonth where
  englishName : String
  persianName : String
  days : Int
  startDay : Int
deriving DecidableEq

instance : Inhabited HijriMonth := ⟨⟨"", "", 0, 0⟩⟩

namespace Hijri

/-- The 12-month Solar Hijri structure: six months of 31 days, five of 30,
one of 29 (30 in leap years). -/
def solarMonths : List HijriMonth :=
  [⟨"First Month", "Farvardin", 31, 1⟩, ⟨"Second Month", "Ordibehesht", 31, 32⟩,
   ⟨"Third Month", "Khordad", 31, 63⟩, ⟨"Fourth Month", "Tir", 31, 94⟩,
   ⟨"Fifth Month", "Mordad", 31, 125⟩, ⟨"Sixth Month", "Shahrivar", 31, 156⟩,
   ⟨"Seventh Month", "Mehr", 30, 187⟩, ⟨"Eighth Month", "Aban", 30, 217⟩,
   ⟨"Ninth Month", "Azar", 30, 247⟩, ⟨"Tenth Month", "Dey", 30, 277⟩,
   ⟨"Eleventh Month", "Bahman", 30, 307⟩, ⟨"Twelfth Month", "Esfand", 29, 337⟩]

/-- Leap test of the variable-layout variant: equinox-to-equinox gap of 366
whole days (ceil on an exact whole-day difference is the difference itself);
with missing data, the Gregorian test applied directly to the solar year. -/
def isSolarLeapYear (t : EquinoxTable) (solarYear : Int) : Bool :=
  match t solarYear, t (solarYear + 1) with
  | some startDate, some nextStartDate => (nextStartDate - startDate).natAbs == 366
  | _, _ => isGregorianLeapYear solarYear

/-- Days in a month of the variable layout: 0 outside 0..11, 30 for the last
month in a leap year, otherwise the tabulated count. -/
def getDaysInSolarMonth (t : EquinoxTable) (solarYear monthIndex : Int) : Int :=
  if monthIndex < 0 ∨ monthIndex > 11 then 0
  else if monthIndex = 11 ∧ isSolarLeapYear t solarYear = true then 30
  else (solarMonths.getD monthIndex.toNat default).days

/-- Solar-day-to-Gregorian of the variable-layout variant: the equinox date
is day 1 and the day number is added with no range validation of any kind;
none is returned only when the equinox entry is missing. -/
def getGregorianDateForSolarDay (t : EquinoxTable) (solarYear solarDay : Int) : Option Int :=
  match t solarYear with
  | none => none
  | some vernalEquinox => some (vernalEquinox + solarDay - 1)

end Hijri

/-- Table with a single 2025 entry; every neighbouring year is missing, so
the leap test must take its fallback branch. -/
def tableOnly2025 : EquinoxTable := fun y =>
  if y = 2025 then some (daysFromCivil 2025 3 20) else none

/-- Table with entries for 2024 and 2025 only; the single consecutive
cached anchor pair is 364 days apart. -/
def tableTwoYears : EquinoxTable := fun y =>
  if y = 2024 then some (daysFromCivil 2024 3 20)
  else if y = 2025 then some (daysFromCivil 2025 3 20)
  else none

/-- Every pair of consecutive cached year anchors differs by at most 366
days: the precondition named by the claim. -/
def cachedGapsAtMost366 (t : EquinoxTable) : Prop :=
  ∀ y a b : Int, getSolarYearStartDate t y = some a →
    getSolarYearStartDate t (y + 1) = some b → (b - a).natAbs ≤ 366


/-
Arithmetic facts about the Gregorian calendar embedding, and reduction
lemmas for the converter, shared by several claim theorems below.
-/

/-- Closed form of jan1: all the era bookkeeping collapses to the classic
floor-division leap count. -/
theorem jan1_closed (y : Int) :
    jan1 y = 365 * (y - 1) + (y - 1) / 4 - (y - 1) / 100 + (y - 1) / 400 - 719162 := by
  unfold jan1 daysFromCivil
  norm_num
  omega

/-- jan1 is monotone in the year. -/
theorem jan1_mono (a b : Int) (h : a ≤ b) : jan1 a ≤ jan1 b := by
  rw [jan1_closed, jan1_closed]
  omega

/-- A Gregorian year is 365 or 366 days long. -/
theorem jan1_step (y z : Int) (h : z = y + 1) :
    jan1 y + 365 ≤ jan1 z ∧ jan1 z ≤ jan1 y + 366 := by
  subst h
  rw [jan1_closed, jan1_closed]
  omega

/-- Anchor resolution on a present table entry. -/
theorem getSolarYearStartDate_some (t : EquinoxTable) (y e : Int) (h : t y = some e) :
    getSolarYearStartDate t y = some (e + mondayAdjust e) := by
  simp [getSolarYearStartDate, h]

/-- The leap test with both anchors present compares the absolute anchor gap
with 366. -/
theorem isSolarLeapYear_eq (t : EquinoxTable) (y a b : Int)
    (h1 : getSolarYearStartDate t y = some a)
    (h2 : getSolarYearStartDate t (y + 1) = some b) :
    isSolarLeapYear t y = ((b - a).natAbs == 366) := by
  simp [isSolarLeapYear, h1, h2]

/-- Classification of a regular day offset. -/
theorem classifySolarDay_regular (t : EquinoxTable) (y ds : Int)
    (h0 : 0 ≤ ds) (h1 : ds < 364) :
    classifySolarDay t y ds = StepRes.done (some (regularInfoOf y ds)) := by
  have hlen : (calendarStructure.length : Int) = 13 := by decide
  unfold classifySolarDay regularInfoOf
  rw [hlen]
  rw [if_neg (by omega)]
  rw [if_neg (by rintro ⟨-, h⟩; omega)]
  rw [if_neg (by intro hcon; split at hcon <;> omega)]
  rw [if_neg (by omega)]
  rw [if_neg (by omega)]

/-- Classification of offset 364: the Year Day result. -/
theorem classifySolarDay_yearDay (t : EquinoxTable) (y : Int) :
    classifySolarDay t y 364 = StepRes.done (some (yearDayInfo y)) := by
  unfold classifySolarDay
  rw [if_pos rfl]

/-- Classification of offset 365 in a leap year: the Leap Day result. -/
theorem classifySolarDay_leapDay (t : EquinoxTable) (y : Int)
    (hL : isSolarLeapYear t y = true) :
    classifySolarDay t y 365 = StepRes.done (some (leapDayInfo y)) := by
  unfold classifySolarDay
  rw [if_neg (by omega), if_pos ⟨hL, rfl⟩]

/-- Below the year length the classification never re-enters. -/
theorem classifySolarDay_done (t : EquinoxTable) (y ds : Int)
    (h : ds < if isSolarLeapYear t y = true then 366 else 365) :
    ∃ r, classifySolarDay t y ds = StepRes.done r := by
  simp only [classifySolarDay]
  split_ifs at h ⊢ <;> first
    | exact ⟨_, rfl⟩
    | (exfalso; omega)

/-- Converter body when the input is on or after the anchor of its own
Gregorian year. -/
theorem convertStep_of_ge (t : EquinoxTable) (gY g hint s0 : Int)
    (h : getSolarYearStartDate t gY = some s0) (hge : s0 ≤ g) :
    convertStep t gY g hint = classifySolarDay t gY (g - s0) := by
  simp only [convertStep, h]
  rw [if_neg (by omega)]

/-- Converter body when the input precedes the anchor of its own Gregorian
year: one backward year step. -/
theorem convertStep_of_lt (t : EquinoxTable) (gY g hint s0 s1 : Int)
    (h : getSolarYearStartDate t gY = some s0) (hlt : g < s0)
    (h2 : getSolarYearStartDate t (gY - 1) = some s1) :
    convertStep t gY g hint = classifySolarDay t (gY - 1) (g - s1) := by
  simp only [convertStep, h, h2]
  rw [if_pos hlt]

/-- The converter returns what a done step carries. -/
theorem getSolar_of_done (t : EquinoxTable) (gY g : Int) (r : Option SolarInfo)
    (h : convertStep t gY g 0 = StepRes.done r) :
    getSolarDateFromGregorian t gY g = ConvOut.result r := by
  simp [getSolarDateFromGregorian, h]

/-- C2 (corrected): with both year anchors resolvable, isSolarLeapYear
returns true exactly when the whole-day gap from the anchor of Y to the
anchor of Y + 1 equals 366 days, 365 (or anything else) meaning not leap.
The remaining part of the claim, that an anchor gap other than 365 or 366
is treated as fatal and never silently accepted, is refuted by the
counterexample: a gap of 371 days occurs and the code silently reports
false. -/
theorem c2_leap_consistency (t : EquinoxTable) (y a b : Int)
    (h1 : getSolarYearStartDate t y = some a)
    (h2 : getSolarYearStartDate t (y + 1) = some b)
    (hab : a ≤ b) :
    isSolarLeapYear t y = true ↔ b - a = 366 := by
  rw [isSolarLeapYear_eq t y a b h1 h2]
  simp only [beq_iff_eq]
  omega

/-- C2 witness: with the fallback table the 2024 anchors resolve and the
equivalence is usable. -/
theorem c2_leap_consistency_witness :
    isSolarLeapYear fallbackEquinoxData 2024 = true ↔
      daysFromCivil 2025 3 24 - daysFromCivil 2024 3 25 = 366 :=
  c2_leap_consistency fallbackEquinoxData 2024 (daysFromCivil 2024 3 25)
    (daysFromCivil 2025 3 24) (by decide) (by decide) (by decide)

/-- C2 counterexample: both anchors of 2028 and 2029 resolve in the
fallback table with a gap of 371 days, which is neither 365 nor 366 (both
anchors are Mondays, so gaps are multiples of 7); the code silently
returns false instead of treating it as fatal. -/
theorem c2_leap_consistency_cex :
    getSolarYearStartDate fallbackEquinoxData 2028 = some (daysFromCivil 2028 3 20) ∧
    getSolarYearStartDate fallbackEquinoxData 2029 = some (daysFromCivil 2029 3 26) ∧
    daysFromCivil 2029 3 26 - daysFromCivil 2028 3 20 = 371 ∧
    isSolarLeapYear fallbackEquinoxData 2028 = false := by decide

/-- C3 (confirmed): the year anchor is the equinox plus (8 - dayOfWeek)
mod 7 days when the equinox is not a Monday (an adjustment in 0..6) and
the equinox itself when it is a Monday, hence always the first Monday on
or after the equinox; concretely, equinox 2025-03-20 is a Thursday, the
2025 anchor is 2025-03-24, and day 1 of solar year 2025 maps to
2025-03-24. -/
theorem c3_year_anchor :
    (∀ (t : EquinoxTable) (y e : Int), t y = some e →
      getSolarYearStartDate t y = some (e + mondayAdjust e) ∧
      (dayOfWeekOf e = 1 → mondayAdjust e = 0) ∧
      (dayOfWeekOf e ≠ 1 → mondayAdjust e = (8 - dayOfWeekOf e) % 7) ∧
      0 ≤ mondayAdjust e ∧ mondayAdjust e ≤ 6 ∧
      dayOfWeekOf (e + mondayAdjust e) = 1 ∧
      (∀ x : Int, e ≤ x → x < e + mondayAdjust e → dayOfWeekOf x ≠ 1)) ∧
    fallbackEquinoxData 2025 = some (daysFromCivil 2025 3 20) ∧
    dayOfWeekOf (daysFromCivil 2025 3 20) = 4 ∧
    getSolarYearStartDate fallbackEquinoxData 2025 = some (daysFromCivil 2025 3 24) ∧
    getGregorianDateForSolarDay fallbackEquinoxData 2025 1 = some (daysFromCivil 2025 3 24) := by
  refine ⟨?_, by decide, by decide, by decide, by decide⟩
  intro t y e h
  refine ⟨getSolarYearStartDate_some t y e h, ?_, ?_, ?_, ?_, ?_, ?_⟩
  · intro h1
    simp [mondayAdjust, h1]
  · intro h1
    simp [mondayAdjust, h1]
  · unfold mondayAdjust dayOfWeekOf
    split <;> omega
  · unfold mondayAdjust dayOfWeekOf
    split <;> omega
  · unfold mondayAdjust dayOfWeekOf
    split <;> omega
  · intro x hx1 hx2
    simp only [mondayAdjust, dayOfWeekOf] at hx2 ⊢
    split at hx2 <;> omega

/-- C3 witness: the general anchor rule applied to the fallback entry for
2028. -/
theorem c3_year_anchor_witness :
    getSolarYearStartDate fallbackEquinoxData 2028 =
      some (daysFromCivil 2028 3 20 + mondayAdjust (daysFromCivil 2028 3 20)) :=
  (c3_year_anchor.1 fallbackEquinoxData 2028 (daysFromCivil 2028 3 20) (by decide)).1

/-- C5 (corrected): the fixed-28 variant returns anchor plus (d - 1)
exactly when the anchor resolves and d lies in the valid range for the
leap status, and null otherwise; but the variable-layout variant performs
no range validation at all: whenever the equinox entry exists it returns
equinox plus (d - 1) for every integer d, so the claim that both variants
reject out-of-range day numbers is refuted by the counterexample. -/
theorem c5_solar_day_validity :
    (∀ (t : EquinoxTable) (y d s : Int), getSolarYearStartDate t y = some s →
       1 ≤ d → d ≤ (if isSolarLeapYear t y = true then 366 else 365) →
       getGregorianDateForSolarDay t y d = some (s + d - 1)) ∧
    (∀ (t : EquinoxTable) (y d : Int), getSolarYearStartDate t y = none →
       getGregorianDateForSolarDay t y d = none) ∧
    (∀ (t : EquinoxTable) (y d s : Int), getSolarYearStartDate t y = some s →
       d < 1 ∨ d > (if isSolarLeapYear t y = true then 366 else 365) →
       getGregorianDateForSolarDay t y d = none) ∧
    (∀ (t : EquinoxTable) (y d e : Int), t y = some e →
       Hijri.getGregorianDateForSolarDay t y d = some (e + d - 1)) ∧
    (∀ (t : EquinoxTable) (y d : Int), t y = none →
       Hijri.getGregorianDateForSolarDay t y d = none) := by
  refine ⟨?_, ?_, ?_, ?_, ?_⟩
  · intro t y d s h h1 h2
    simp only [getGregorianDateForSolarDay, h]
    rw [if_neg]
    push_neg
    exact ⟨h1, h2⟩
  · intro t y d h
    simp [getGregorianDateForSolarDay, h]
  · intro t y d s h hd
    simp only [getGregorianDateForSolarDay, h]
    rw [if_pos hd]
  · intro t y d e h
    simp [Hijri.getGregorianDateForSolarDay, h]
  · intro t y d h
    simp [Hijri.getGregorianDateForSolarDay, h]

/-- C5 witness: the variable-layout conversion on a small valid day
number. -/
theorem c5_solar_day_validity_witness :
    Hijri.getGregorianDateForSolarDay fallbackEquinoxData 2025 10 =
      some (daysFromCivil 2025 3 20 + 10 - 1) :=
  c5_solar_day_validity.2.2.2.1 fallbackEquinoxData 2025 10 (daysFromCivil 2025 3 20) (by decide)

/-- C5 counterexample: day number 1000 is far outside the valid range of
the non-leap year 2025, yet the variable-layout variant returns a date
rather than the claimed Invalid. -/
theorem c5_solar_day_validity_cex :
    (365 : Int) < 1000 ∧
    Hijri.isSolarLeapYear fallbackEquinoxData 2025 = false ∧
    Hijri.getGregorianDateForSolarDay fallbackEquinoxData 2025 1000 =
      some (daysFromCivil 2025 3 20 + 999) ∧
    Hijri.getGregorianDateForSolarDay fallbackEquinoxData 2025 1000 ≠ none := by decide

/-- C6 (confirmed): within the chosen solar year, offset 364 from the
anchor yields the Year Day result, offset 365 in a leap year yields the
Leap Day result, offsets below 364 yield month floor(ds / 28) with day
(ds mod 28) + 1, and every special-day result carries no ordinal month
(monthNumber null, monthIndex the sentinel -1); the converter applied to
the date 364 days after the anchor of its own Gregorian year returns the
Year Day result of that year. -/
theorem c6_special_days :
    (∀ (t : EquinoxTable) (sy : Int),
       classifySolarDay t sy 364 = StepRes.done (some (yearDayInfo sy))) ∧
    (∀ (t : EquinoxTable) (sy : Int), isSolarLeapYear t sy = true →
       classifySolarDay t sy 365 = StepRes.done (some (leapDayInfo sy))) ∧
    (∀ (t : EquinoxTable) (sy ds : Int), 0 ≤ ds → ds < 364 →
       classifySolarDay t sy ds = StepRes.done (some (regularInfoOf sy ds))) ∧
    (∀ (t : EquinoxTable) (gY g a : Int),
       getSolarYearStartDate t gY = some a → g - a = 364 →
       getSolarDateFromGregorian t gY g = ConvOut.result (some (yearDayInfo gY))) ∧
    (∀ y : Int, (yearDayInfo y).monthNumber = none ∧ (yearDayInfo y).monthIndex = -1 ∧
       (leapDayInfo y).monthNumber = none ∧ (leapDayInfo y).monthIndex = -1) ∧
    (∀ (t : EquinoxTable) (sy ds : Int) (r : SolarInfo),
       classifySolarDay t sy ds = StepRes.done (some r) → r.specialDay ≠ none →
       r.monthNumber = none ∧ r.monthIndex = -1) := by
  refine ⟨classifySolarDay_yearDay, classifySolarDay_leapDay, classifySolarDay_regular,
    ?_, ?_, ?_⟩
  · intro t gY g a h h364
    have hstep : convertStep t gY g 0 = classifySolarDay t gY (g - a) :=
      convertStep_of_ge t gY g 0 a h (by omega)
    rw [h364] at hstep
    exact getSolar_of_done t gY g _ (hstep.trans (classifySolarDay_yearDay t gY))
  · intro y
    exact ⟨rfl, rfl, rfl, rfl⟩
  · intro t sy ds r h hsd
    simp only [classifySolarDay] at h
    split_ifs at h <;>
      first
        | (rw [StepRes.done.injEq, Option.some.injEq] at h; subst h;
           first
             | exact ⟨rfl, rfl⟩
             | exact absurd rfl hsd)
        | simp at h

/-- C6 witness: the regular classification of offset 27. -/
theorem c6_special_days_witness :
    classifySolarDay fallbackEquinoxData 2025 27 =
      StepRes.done (some (regularInfoOf 2025 27)) :=
  c6_special_days.2.2.1 fallbackEquinoxData 2025 27 (by decide) (by decide)

/-- C7 (confirmed): for a fixed solar year with a resolvable anchor, the
solar-day-to-Gregorian map is strictly increasing on the valid day range. -/
theorem c7_monotonicity (t : EquinoxTable) (y a d1 d2 : Int)
    (h : getSolarYearStartDate t y = some a)
    (h1 : 1 ≤ d1) (h2 : d1 < d2)
    (h3 : d2 ≤ (if isSolarLeapYear t y = true then 366 else 365)) :
    ∃ g1 g2, getGregorianDateForSolarDay t y d1 = some g1 ∧
      getGregorianDateForSolarDay t y d2 = some g2 ∧ g1 < g2 := by
  have hval : ∀ d : Int, 1 ≤ d → d ≤ (if isSolarLeapYear t y = true then 366 else 365) →
      getGregorianDateForSolarDay t y d = some (a + d - 1) := by
    intro d hd1 hd2
    simp only [getGregorianDateForSolarDay, h]
    rw [if_neg]
    push_neg
    exact ⟨hd1, hd2⟩
  exact ⟨a + d1 - 1, a + d2 - 1, hval d1 h1 (le_trans (by omega) h3),
    hval d2 (by omega) h3, by omega⟩

/-- C7 witness: strict growth between day 1 and day 200 of solar year 2025
over the fallback table. -/
theorem c7_monotonicity_witness :
    ∃ g1 g2, getGregorianDateForSolarDay fallbackEquinoxData 2025 1 = some g1 ∧
      getGregorianDateForSolarDay fallbackEquinoxData 2025 200 = some g2 ∧ g1 < g2 :=
  c7_monotonicity fallbackEquinoxData 2025 (daysFromCivil 2025 3 24) 1 200
    (by decide) (by decide) (by decide) (by decide)

/-- C8 (corrected): when the anchor of Y or of Y + 1 is unresolvable, both
leap-test variants return the plain Gregorian leap test of the year number
of the equinox entry (which the loader makes equal to Y itself).  The
remaining part of the claim, that results relying on the fallback are
flagged as degraded-accuracy, is refuted by the counterexample: the result
is a bare boolean, identical to a primary-rule result. -/
theorem c8_leap_fallback :
    (∀ (t : EquinoxTable) (y : Int),
       getSolarYearStartDate t y = none ∨ getSolarYearStartDate t (y + 1) = none →
       isSolarLeapYear t y = isGregorianLeapYear y) ∧
    (∀ (t : EquinoxTable) (y : Int), t y = none ∨ t (y + 1) = none →
       Hijri.isSolarLeapYear t y = isGregorianLeapYear y) := by
  constructor
  · intro t y h
    cases h1 : getSolarYearStartDate t y <;>
      cases h2 : getSolarYearStartDate t (y + 1) <;>
      simp [isSolarLeapYear, h1, h2] <;>
      rcases h with h | h <;> simp_all
  · intro t y h
    cases h1 : t y <;> cases h2 : t (y + 1) <;>
      simp [Hijri.isSolarLeapYear, h1, h2] <;>
      rcases h with h | h <;> simp_all

/-- C8 witness: with only the 2025 entry present the fixed-28 leap test
falls back to the Gregorian test of 2025. -/
theorem c8_leap_fallback_witness :
    isSolarLeapYear tableOnly2025 2025 = isGregorianLeapYear 2025 :=
  c8_leap_fallback.1 tableOnly2025 2025 (Or.inr (by decide))

/-- C8 counterexample: a fallback (degraded) result and a primary-rule
(authoritative) result are the very same unmarked boolean value, so no
result relying on the fallback is flagged as degraded-accuracy. -/
theorem c8_leap_fallback_cex :
    getSolarYearStartDate tableOnly2025 2026 = none ∧
    (getSolarYearStartDate fallbackEquinoxData 2025).isSome = true ∧
    (getSolarYearStartDate fallbackEquinoxData 2026).isSome = true ∧
    isSolarLeapYear tableOnly2025 2025 = false ∧
    isSolarLeapYear fallbackEquinoxData 2025 = false ∧
    isSolarLeapYear tableOnly2025 2025 = isSolarLeapYear fallbackEquinoxData 2025 := by
  decide

/-- C9 (confirmed): the fixed-28 table has 13 months summing to 364 days
with consistent cumulative start days; the variable table has 12 months
summing to 365 days (non-leap) with consistent cumulative start days, and
exactly the last month grows from 29 to 30 days in a leap year, every
other month being leap-independent. -/
theorem c9_month_structure :
    calendarStructure.length = 13 ∧
    (calendarStructure.map (fun m => m.days)).sum = 364 ∧
    (∀ i : Fin 12, (calendarStructure.getD (i.1 + 1) default).startDay =
        (calendarStructure.getD i.1 default).startDay +
        (calendarStructure.getD i.1 default).days) ∧
    Hijri.solarMonths.length = 12 ∧
    (Hijri.solarMonths.map (fun m => m.days)).sum = 365 ∧
    (∀ (t : EquinoxTable) (y i : Int), 0 ≤ i → i < 11 →
       Hijri.getDaysInSolarMonth t y i = (Hijri.solarMonths.getD i.toNat default).days) ∧
    (∀ (t : EquinoxTable) (y : Int),
       Hijri.getDaysInSolarMonth t y 11 =
         if Hijri.isSolarLeapYear t y = true then 30 else 29) ∧
    (∀ i : Fin 11, (Hijri.solarMonths.getD (i.1 + 1) default).startDay =
        (Hijri.solarMonths.getD i.1 default).startDay +
        (Hijri.solarMonths.getD i.1 default).days) := by
  refine ⟨by decide, by decide, by decide, by decide, by decide, ?_, ?_, by decide⟩
  · intro t y i h0 h1
    unfold Hijri.getDaysInSolarMonth
    rw [if_neg (by omega), if_neg (by rintro ⟨h11, -⟩; omega)]
  · intro t y
    unfold Hijri.getDaysInSolarMonth
    rw [if_neg (by omega)]
    by_cases hL : Hijri.isSolarLeapYear t y = true
    · rw [if_pos ⟨rfl, hL⟩, if_pos hL]
    · rw [if_neg (by rintro ⟨-, hc⟩; exact hL hc), if_neg hL]
      decide

/-- C9 witness: the leap-independence component applied to month 3 of the
variable layout. -/
theorem c9_month_structure_witness :
    Hijri.getDaysInSolarMonth fallbackEquinoxData 2025 3 =
      (Hijri.solarMonths.getD (3 : Int).toNat default).days :=
  c9_month_structure.2.2.2.2.2.1 fallbackEquinoxData 2025 3 (by decide) (by decide)

/-- C1 (corrected): the round trip holds for every valid day number d of a
solar year whose anchors resolve, whose anchor lies inside its own
Gregorian year, and whose anchor-to-anchor gap is at least 365 days: the
conversion back classifies (Y, d) as month floor((d - 1) / 28) day
((d - 1) mod 28) + 1 for d ≤ 364, Year Day at 365, Leap Day at 366.  The
gap hypothesis is forced by the counterexample: anchors are Mondays, so
gaps of 364 days occur (for example 2024 to 2025), and then day 365 of Y
collides with day 1 of Y + 1 and the round trip fails as stated. -/
theorem c1_round_trip (t : EquinoxTable) (Y aY aY1 d gY : Int)
    (ha : getSolarYearStartDate t Y = some aY)
    (hb : getSolarYearStartDate t (Y + 1) = some aY1)
    (hgap : 365 ≤ aY1 - aY)
    (hloc1 : jan1 Y ≤ aY) (hloc2 : aY < jan1 (Y + 1))
    (hd1 : 1 ≤ d)
    (hd2 : d ≤ (if isSolarLeapYear t Y = true then 366 else 365))
    (hcoh1 : jan1 gY ≤ aY + d - 1) (hcoh2 : aY + d - 1 < jan1 (gY + 1)) :
    getGregorianDateForSolarDay t Y d = some (aY + d - 1) ∧
    getSolarDateFromGregorian t gY (aY + d - 1) =
      ConvOut.result (some (solarClassOf Y d)) := by
  have hLiff : isSolarLeapYear t Y = true ↔ aY1 - aY = 366 := by
    rw [isSolarLeapYear_eq t Y aY aY1 ha hb]
    simp only [beq_iff_eq]
    omega
  have hdle : d ≤ 366 := by
    by_cases hL : isSolarLeapYear t Y = true
    · rw [if_pos hL] at hd2; exact hd2
    · rw [if_neg hL] at hd2; omega
  have hlt_next : aY + d - 1 < aY1 := by
    by_cases hL : isSolarLeapYear t Y = true
    · have := hLiff.mp hL
      omega
    · rw [if_neg hL] at hd2
      omega
  have hpart1 : getGregorianDateForSolarDay t Y d = some (aY + d - 1) := by
    simp only [getGregorianDateForSolarDay, ha]
    rw [if_neg]
    push_neg
    exact ⟨hd1, hd2⟩
  refine ⟨hpart1, ?_⟩
  have hclass : classifySolarDay t Y (d - 1) = StepRes.done (some (solarClassOf Y d)) := by
    by_cases h364 : d ≤ 364
    · rw [classifySolarDay_regular t Y (d - 1) (by omega) (by omega)]
      unfold solarClassOf
      rw [if_pos h364]
    · by_cases h365 : d = 365
      · subst h365
        rw [show (365 : Int) - 1 = 364 from by norm_num, classifySolarDay_yearDay]
        simp [solarClassOf]
      · have hL : isSolarLeapYear t Y = true := by
          by_contra hL
          rw [if_neg hL] at hd2
          omega
        have h366 : d = 366 := by
          rw [if_pos hL] at hd2
          omega
        subst h366
        rw [show (366 : Int) - 1 = 365 from by norm_num, classifySolarDay_leapDay t Y hL]
        simp [solarClassOf]
  have hgy1 : Y ≤ gY := by
    by_contra hcon
    push_neg at hcon
    have := jan1_mono (gY + 1) Y (by omega)
    omega
  have hgy2 : gY ≤ Y + 1 := by
    by_contra hcon
    push_neg at hcon
    have hm := jan1_mono (Y + 2) gY (by omega)
    have hs := (jan1_step (Y + 1) (Y + 2) (by ring)).1
    omega
  have hgy : gY = Y ∨ gY = Y + 1 := by omega
  rcases hgy with hgy | hgy <;> rw [hgy]
  · have hstep : convertStep t Y (aY + d - 1) 0 = classifySolarDay t Y (d - 1) := by
      rw [convertStep_of_ge t Y (aY + d - 1) 0 aY ha (by omega),
        show aY + d - 1 - aY = d - 1 from by ring]
    exact getSolar_of_done t Y (aY + d - 1) _ (hstep.trans hclass)
  · have hb' : getSolarYearStartDate t (Y + 1 - 1) = some aY := by
      rw [show Y + 1 - 1 = Y from by ring]
      exact ha
    have hstep : convertStep t (Y + 1) (aY + d - 1) 0 =
        classifySolarDay t (Y + 1 - 1) (aY + d - 1 - aY) :=
      convertStep_of_lt t (Y + 1) (aY + d - 1) 0 aY1 aY hb hlt_next hb'
    rw [show Y + 1 - 1 = Y from by ring,
      show aY + d - 1 - aY = d - 1 from by ring] at hstep
    exact getSolar_of_done t (Y + 1) (aY + d - 1) _ (hstep.trans hclass)

/-- C1 witness: day 1 of solar year 2028 over the fallback table (gap 371,
well inside the amended hypotheses) round-trips. -/
theorem c1_round_trip_witness :
    getGregorianDateForSolarDay fallbackEquinoxData 2028 1 =
      some (daysFromCivil 2028 3 20 + 1 - 1) ∧
    getSolarDateFromGregorian fallbackEquinoxData 2028 (daysFromCivil 2028 3 20 + 1 - 1) =
      ConvOut.result (some (solarClassOf 2028 1)) :=
  c1_round_trip fallbackEquinoxData 2028 (daysFromCivil 2028 3 20) (daysFromCivil 2029 3 26)
    1 2028 (by decide) (by decide) (by decide) (by decide) (by decide) (by decide) (by decide)
    (by decide) (by decide)

/-- C1 counterexample: the fallback table has entries for 2024 and 2025 and
the anchor gap is 364 (2024-03-25 to 2025-03-24, both Mondays); day 365 is
valid for the non-leap year 2024 and maps to 2025-03-24, but converting
that date back yields day 1 of month 1 of solar year 2025, not the Year
Day of 2024 that the claim requires. -/
theorem c1_round_trip_cex :
    fallbackEquinoxData 2024 = some (daysFromCivil 2024 3 20) ∧
    fallbackEquinoxData 2025 = some (daysFromCivil 2025 3 20) ∧
    isSolarLeapYear fallbackEquinoxData 2024 = false ∧
    getGregorianDateForSolarDay fallbackEquinoxData 2024 365 = some (daysFromCivil 2025 3 24) ∧
    jan1 2025 ≤ daysFromCivil 2025 3 24 ∧
    daysFromCivil 2025 3 24 < jan1 2026 ∧
    getSolarDateFromGregorian fallbackEquinoxData 2025 (daysFromCivil 2025 3 24) =
      ConvOut.result (some (regularInfoOf 2025 0)) ∧
    regularInfoOf 2025 0 ≠ solarClassOf 2024 365 := by
  decide

/-- C4 (corrected): converting the exact anchor date of a solar year Y
(resolvable, inside its own Gregorian year) yields day 1 of month 1 of Y,
not day 365 of Y - 1; converting the day immediately before the anchor
steps back into solar year Y - 1 and yields the day at offset gap - 1
(for the fallback table, 2025-03-23 is day 364 of solar year 2024: month
index 12 Sol, day 28) - but only when the anchor gap is at most 366 days.
The claim as stated, that the day before the anchor always resolves via
the backward step rather than returning Invalid, is refuted by the
counterexample: with a gap of 371 days (anchors 2028-03-20 and 2029-03-26)
the code re-enters its defensive overflow branch with identical arguments
and never terminates, neither resolving nor returning Invalid. -/
theorem c4_anchor_boundary :
    (∀ (t : EquinoxTable) (Y a1 : Int),
       getSolarYearStartDate t Y = some a1 →
       jan1 Y ≤ a1 → a1 < jan1 (Y + 1) →
       getSolarDateFromGregorian t Y a1 = ConvOut.result (some (regularInfoOf Y 0))) ∧
    (∀ (t : EquinoxTable) (Y a0 a1 gY : Int),
       getSolarYearStartDate t (Y - 1) = some a0 →
       getSolarYearStartDate t Y = some a1 →
       1 ≤ a1 - a0 → a1 - a0 ≤ 366 →
       jan1 Y ≤ a1 → a1 < jan1 (Y + 1) →
       jan1 gY ≤ a1 - 1 → a1 - 1 < jan1 (gY + 1) →
       getSolarDateFromGregorian t gY (a1 - 1) =
         ConvOut.result (some (lastDayClassOf (Y - 1) (a1 - a0 - 1)))) ∧
    getSolarDateFromGregorian fallbackEquinoxData 2025 (daysFromCivil 2025 3 23) =
      ConvOut.result (some (regularInfoOf 2024 363)) ∧
    (regularInfoOf 2024 363).monthIndex = 12 ∧
    (regularInfoOf 2024 363).day = 28 := by
  refine ⟨?_, ?_, by decide, by decide, by decide⟩
  · intro t Y a1 h _h1 _h2
    have hstep : convertStep t Y a1 0 = classifySolarDay t Y (a1 - a1) :=
      convertStep_of_ge t Y a1 0 a1 h (le_refl a1)
    rw [show a1 - a1 = (0 : Int) from by ring] at hstep
    exact getSolar_of_done t Y a1 _
      (hstep.trans (classifySolarDay_regular t Y 0 (by norm_num) (by norm_num)))
  · intro t Y a0 a1 gY h0 h1 hg1 hg2 hw1 hw2 hc1 hc2
    have hstepY := (jan1_step (Y - 1) Y (by ring)).1
    have hgy1 : Y - 1 ≤ gY := by
      by_contra hcon
      push_neg at hcon
      have := jan1_mono (gY + 1) (Y - 1) (by omega)
      omega
    have hgy2 : gY ≤ Y := by
      by_contra hcon
      push_neg at hcon
      have := jan1_mono (Y + 1) gY (by omega)
      omega
    have hL : isSolarLeapYear t (Y - 1) = ((a1 - a0).natAbs == 366) := by
      have h1' : getSolarYearStartDate t (Y - 1 + 1) = some a1 := by
        rw [show Y - 1 + 1 = Y from by ring]
        exact h1
      exact isSolarLeapYear_eq t (Y - 1) a0 a1 h0 h1'
    have hclass : classifySolarDay t (Y - 1) (a1 - 1 - a0) =
        StepRes.done (some (lastDayClassOf (Y - 1) (a1 - a0 - 1))) := by
      by_cases hc364 : a1 - a0 - 1 = 364
      · unfold lastDayClassOf
        rw [if_pos hc364, show a1 - 1 - a0 = a1 - a0 - 1 from by ring, hc364,
          classifySolarDay_yearDay]
      · by_cases hc365 : a1 - a0 - 1 = 365
        · have hLt : isSolarLeapYear t (Y - 1) = true := by
            rw [hL, show a1 - a0 = 366 from by omega]
            decide
          unfold lastDayClassOf
          rw [if_neg hc364, if_pos hc365, show a1 - 1 - a0 = a1 - a0 - 1 from by ring, hc365,
            classifySolarDay_leapDay t (Y - 1) hLt]
        · unfold lastDayClassOf
          rw [if_neg hc364, if_neg hc365, show a1 - 1 - a0 = a1 - a0 - 1 from by ring,
            classifySolarDay_regular t (Y - 1) (a1 - a0 - 1) (by omega) (by omega)]
    have hgy : gY = Y - 1 ∨ gY = Y := by omega
    rcases hgy with hgy | hgy <;> rw [hgy]
    · have hstep : convertStep t (Y - 1) (a1 - 1) 0 = classifySolarDay t (Y - 1) (a1 - 1 - a0) :=
        convertStep_of_ge t (Y - 1) (a1 - 1) 0 a0 h0 (by omega)
      exact getSolar_of_done t (Y - 1) (a1 - 1) _ (hstep.trans hclass)
    · have hstep : convertStep t Y (a1 - 1) 0 = classifySolarDay t (Y - 1) (a1 - 1 - a0) :=
        convertStep_of_lt t Y (a1 - 1) 0 a1 a0 h1 (by omega) h0
      exact getSolar_of_done t Y (a1 - 1) _ (hstep.trans hclass)

/-- C4 witness: the backward-step component applied to the 2025 anchor over
the fallback table (gap 364, day before the anchor is day 364 of 2024). -/
theorem c4_anchor_boundary_witness :
    getSolarDateFromGregorian fallbackEquinoxData 2025 (daysFromCivil 2025 3 24 - 1) =
      ConvOut.result (some (lastDayClassOf (2025 - 1)
        (daysFromCivil 2025 3 24 - daysFromCivil 2024 3 25 - 1))) :=
  c4_anchor_boundary.2.1 fallbackEquinoxData 2025 (daysFromCivil 2024 3 25)
    (daysFromCivil 2025 3 24) 2025 (by decide) (by decide) (by decide) (by decide)
    (by decide) (by decide) (by decide) (by decide)

/-- C4 counterexample: the anchors of 2028 and 2029 resolve with a gap of
371 days; the Gregorian day immediately before the 2029 anchor does not
resolve into solar year 2028 (nor return Invalid): the conversion hits the
overflow branch and diverges. -/
theorem c4_anchor_boundary_cex :
    getSolarYearStartDate fallbackEquinoxData 2029 = some (daysFromCivil 2029 3 26) ∧
    getSolarYearStartDate fallbackEquinoxData 2028 = some (daysFromCivil 2028 3 20) ∧
    getSolarDateFromGregorian fallbackEquinoxData 2029 (daysFromCivil 2029 3 25) =
      ConvOut.diverges := by
  decide

/-- C10 (corrected): the overflow branch re-enters the function with a year
hint the body never reads, so one step is hint-independent, and the
conversion diverges exactly when every amount of fuel runs out, which
happens exactly when the first pass takes the overflow branch.  The branch
is unreachable - so the function terminates - under the amended
precondition that the anchors of the input year and of the preceding year
resolve, differ by at most 366 days, and the input lies at most 364 days
after the anchor of its own year (March anchors guarantee this).  The
precondition of the claim as stated, consecutive cached anchor gaps of at
most 366 days alone, is refuted by the counterexample. -/
theorem c10_termination :
    (∀ (t : EquinoxTable) (gY g h1 h2 : Int),
       convertStep t gY g h1 = convertStep t gY g h2) ∧
    (∀ (t : EquinoxTable) (gY g : Int),
       getSolarDateFromGregorian t gY g = ConvOut.diverges ↔
         ∀ (n : Nat) (h : Int), convertFuel n t gY g h = none) ∧
    (∀ (t : EquinoxTable) (gY g a0 a1 : Int),
       getSolarYearStartDate t gY = some a1 →
       getSolarYearStartDate t (gY - 1) = some a0 →
       a1 - a0 ≤ 366 →
       g - a1 ≤ 364 →
       getSolarDateFromGregorian t gY g ≠ ConvOut.diverges) := by
  refine ⟨fun t gY g h1 h2 => rfl, ?_, ?_⟩
  · intro t gY g
    constructor
    · intro hdiv
      have hre : ∃ y, convertStep t gY g 0 = StepRes.retry y := by
        cases hc : convertStep t gY g 0 with
        | done r =>
          rw [getSolar_of_done t gY g r hc] at hdiv
          exact absurd hdiv (by simp)
        | retry y => exact ⟨y, rfl⟩
      obtain ⟨y, hy⟩ := hre
      intro n
      induction n with
      | zero => intro h; rfl
      | succ n ih =>
        intro h
        have hstep : convertStep t gY g h = StepRes.retry y := hy
        simp only [convertFuel, hstep]
        exact ih y
    · intro hall
      cases hc : convertStep t gY g 0 with
      | done r =>
        have hone : convertFuel 1 t gY g 0 = some r := by
          simp only [convertFuel, hc]
        rw [hall 1 0] at hone
        exact absurd hone (by simp)
      | retry y =>
        simp [getSolarDateFromGregorian, hc]
  · intro t gY g a0 a1 h1 h0 hgap hle
    by_cases hge : a1 ≤ g
    · have hstep : convertStep t gY g 0 = classifySolarDay t gY (g - a1) :=
        convertStep_of_ge t gY g 0 a1 h1 hge
      have hlt : g - a1 < (if isSolarLeapYear t gY = true then 366 else 365) := by
        split <;> omega
      obtain ⟨r, hr⟩ := classifySolarDay_done t gY (g - a1) hlt
      rw [getSolar_of_done t gY g r (hstep.trans hr)]
      simp
    · push_neg at hge
      have hstep : convertStep t gY g 0 = classifySolarDay t (gY - 1) (g - a0) :=
        convertStep_of_lt t gY g 0 a1 a0 h1 hge h0
      have hLeq : isSolarLeapYear t (gY - 1) = ((a1 - a0).natAbs == 366) := by
        have h1' : getSolarYearStartDate t (gY - 1 + 1) = some a1 := by
          rw [show gY - 1 + 1 = gY from by ring]
          exact h1
        exact isSolarLeapYear_eq t (gY - 1) a0 a1 h0 h1'
      have hlt : g - a0 < (if isSolarLeapYear t (gY - 1) = true then 366 else 365) := by
        cases hLv : isSolarLeapYear t (gY - 1) with
        | false =>
          have hbf : ((a1 - a0).natAbs == 366) = false := by
            rw [← hLeq]
            exact hLv
          have hne : (a1 - a0).natAbs ≠ 366 := by
            intro hc
            rw [hc] at hbf
            exact absurd hbf (by decide)
          rw [if_neg (by decide)]
          omega
        | true =>
          rw [if_pos rfl]
          omega
      obtain ⟨r, hr⟩ := classifySolarDay_done t (gY - 1) (g - a0) hlt
      rw [getSolar_of_done t gY g r (hstep.trans hr)]
      simp

/-- C10 witness: over the fallback table, a mid-year 2025 input satisfies
the amended precondition and the conversion does not diverge. -/
theorem c10_termination_witness :
    getSolarDateFromGregorian fallbackEquinoxData 2025 (daysFromCivil 2025 6 1) ≠
      ConvOut.diverges :=
  c10_termination.2.2 fallbackEquinoxData 2025 (daysFromCivil 2025 6 1)
    (daysFromCivil 2024 3 25) (daysFromCivil 2025 3 24)
    (by decide) (by decide) (by decide) (by decide)

/-- C10 counterexample: a table whose consecutive cached anchors all differ
by at most 366 days (the only consecutive pair, 2024 to 2025, is 364 days
apart), yet the conversion of 2026-06-01 takes the overflow branch and
diverges - the precondition stated by the claim does not make the branch
unreachable. -/
theorem c10_termination_cex :
    cachedGapsAtMost366 tableTwoYears ∧
    getSolarDateFromGregorian tableTwoYears 2026 (daysFromCivil 2026 6 1) =
      ConvOut.diverges := by
  constructor
  · intro y a b h1 h2
    by_cases h24 : y = 2024
    · subst h24
      have e1 : getSolarYearStartDate tableTwoYears 2024 = some (daysFromCivil 2024 3 25) := by
        decide
      have e2 : getSolarYearStartDate tableTwoYears (2024 + 1) =
          some (daysFromCivil 2025 3 24) := by
        decide
      rw [e1] at h1
      rw [e2] at h2
      injection h1 with h1
      injection h2 with h2
      subst h1
      subst h2
      decide
    · by_cases h25 : y = 2025
      · subst h25
        have e3 : getSolarYearStartDate tableTwoYears (2025 + 1) = none := by decide
        rw [e3] at h2
        exact Option.noConfusion h2
      · have hn : tableTwoYears y = none := by
          unfold tableTwoYears
          rw [if_neg h24, if_neg h25]
        simp [getSolarYearStartDate, hn] at h1
  · decide
